import Mathlib

/-!
Verification of the burnout-tracker web application (`main.go`).

The program is a single-file Go web server: a form submission is parsed into
numeric fields, a burnout score is computed by a fixed linear formula and
clamped to `[0,100]`, a risk tier and an advice text are derived, the entry is
inserted into a SQLite `entries` table, and a separate endpoint returns the
last ten `(created_at, score)` pairs as chart JSON.

The embedding below models the numeric fields with `ℚ` (the Go code uses
`float64`; every constant of the formula is exact), machine integers with `ℤ`,
and the database table as a Lean list of rows, with the SQL `ORDER BY`
clauses modelled as insertion sorts.
-/

namespace Burnout

/-- The typed input of one `/calculate` submission, after form parsing
(`handleCalculate`, `main.go` lines 110–115). -/
structure CalcInput where
  sleep : ℚ
  studyHours : ℚ
  deadlines : ℤ
  mood : ℤ
  stress : ℤ
  exercise : Bool
deriving DecidableEq, Repr

/-- Go `sleepPenalty := (8.0 - sleep) * 8.0` (`main.go` line 120). -/
def sleepPenalty (sleep : ℚ) : ℚ := (8 - sleep) * 8

/-- Go `exerciseBonus`: `10.0` when `exercise` else `0.0` (`main.go` lines 124–127). -/
def exerciseBonus (exercise : Bool) : ℚ := if exercise then 10 else 0

/-- The raw score before clamping (`main.go` lines 129–133):
`deadlines*10 + stress*12 + sleepPenalty + studyHours*3 - exerciseBonus`. -/
def rawScore (i : CalcInput) : ℚ :=
  (i.deadlines : ℚ) * 10 + (i.stress : ℚ) * 12 + sleepPenalty i.sleep
    + i.studyHours * 3 - exerciseBonus i.exercise

/-- Go `score := math.Max(0, math.Min(100, rawScore))` (`main.go` line 136). -/
def score (i : CalcInput) : ℚ := max 0 (min 100 (rawScore i))

/-- The spec formula for the raw score, written exactly as §4.1 of the spec
states it, to be compared with `rawScore` as translated from the code. -/
def rawScoreSpec (i : CalcInput) : ℚ :=
  (i.deadlines : ℚ) * 10 + (i.stress : ℚ) * 12 + (8 - i.sleep) * 8
    + i.studyHours * 3 - (if i.exercise then 10 else 0)

/-- The risk-tier label chosen from the score (`main.go` lines 140–156). -/
def levelOf (s : ℚ) : String :=
  if s ≤ 30 then "🟢 Healthy"
  else if s ≤ 60 then "🟡 At Risk"
  else if s ≤ 80 then "🟠 High Risk"
  else "🔴 Severe Burnout"

/-- The four intro phrases of `generateAIAdvice` (`main.go` lines 288–293). -/
def adviceIntro : List String :=
  ["Based on your current workload patterns,",
   "Analyzing your physiological and academic inputs,",
   "Correlating your sleep data with stress levels,",
   "My assessment of your current state suggests"]

/-- The advice body, selected by score band (`main.go` lines 298–307); the
High-Risk band interpolates the deadline count. -/
def adviceBody (deadlines : ℤ) (s : ℚ) : String :=
  if s > 80 then
    "your system is in critical overdrive. The combination of high stress and sleep deprivation is unsustainable. Your cognitive performance is likely degrading."
  else if s > 60 then
    "you are navigating a high-pressure zone. Managing " ++ toString deadlines ++ " deadlines with elevated stress is depleting your reserves faster than you can recover."
  else if s > 30 then
    "you are maintaining functionality but showing early signs of friction. Your sleep schedule needs slight optimization to buffer against upcoming deadlines."
  else
    "you have achieved an optimal balance between academic rigor and personal recovery. Your resilience metrics are currently peak."

/-- The action recommendation of `generateAIAdvice` (`main.go` lines 309–318),
chosen by the first matching rule. -/
def adviceAction (sleep : ℚ) (deadlines stress : ℤ) : String :=
  if sleep < 5 then
    "Immediate Priority: Disconnect 1 hour before bed to reclaim REM cycles."
  else if stress > 3 then
    "Suggestion: Implement the Pomodoro technique (25/5) to fragment stress accumulation."
  else if deadlines > 4 then
    "Strategy: Triage your deadlines; ask for extensions on low-priority tasks."
  else
    "Recommendation: Maintain current routine but monitor hydration levels."

/-- `generateAIAdvice` (`main.go` lines 285–330). The pseudo-random choice of
intro phrase (`rand.Intn(4)` reseeded from the clock) is modelled by the
explicit index `introIdx`. -/
def generateAIAdvice (introIdx : ℕ) (sleep : ℚ) (deadlines stress : ℤ) (s : ℚ) : String :=
  adviceIntro.getD introIdx "" ++ " " ++ adviceBody deadlines s ++ " "
    ++ adviceAction sleep deadlines stress

/-- One persisted row of the `entries` table (`main.go` lines 74–86 schema,
insert at lines 162–165). `createdAt` is the store-assigned timestamp
(`DATETIME DEFAULT CURRENT_TIMESTAMP`), modelled in seconds. `scanOk` models
whether `rows.Scan` succeeds when this row is later read back
(`main.go` line 351). -/
structure Row where
  createdAt : ℕ
  sleep : ℚ
  studyHours : ℚ
  deadlines : ℤ
  mood : ℤ
  stress : ℤ
  exercise : Bool
  score : ℚ
  level : String
  advice : String
  scanOk : Bool
deriving DecidableEq, Repr

/-- The state of the database: `none` when the `entries` table does not
exist, `some rows` when it exists and holds `rows` in insertion order. -/
structure StoreState where
  entriesTable : Option (List Row)
deriving DecidableEq, Repr

/-- SQL `DROP TABLE IF EXISTS entries` (`main.go` lines 68–71): afterwards the
table does not exist, whatever it held. -/
def dropTableIfExists (_ : StoreState) : StoreState :=
  { entriesTable := none }

/-- SQL `CREATE TABLE IF NOT EXISTS entries (...)` (`main.go` lines 73–88):
creates an empty table when absent, leaves an existing table untouched. -/
def createTableIfNotExists (s : StoreState) : StoreState :=
  match s.entriesTable with
  | none => { entriesTable := some [] }
  | some rows => { entriesTable := some rows }

/-- Go `runMigrations` (`main.go` lines 65–90): drop, then create. -/
def runMigrations (s : StoreState) : StoreState :=
  createTableIfNotExists (dropTableIfExists s)

/-- The six raw form fields of a `/calculate` submission. A numeric field is
`none` when its string does not parse (`strconv.ParseFloat` / `strconv.Atoi`
returning an error together with the zero value, `main.go` lines 110–114);
`exercise` is the raw string compared against `"on"` (line 115). -/
structure Form where
  sleep : Option ℚ
  studyHours : Option ℚ
  deadlines : Option ℤ
  mood : Option ℤ
  stress : Option ℤ
  exercise : String
deriving DecidableEq, Repr

/-- Form parsing in `handleCalculate` (`main.go` lines 110–115): each parse
error is discarded with `_`, leaving the zero value. -/
def parseForm (f : Form) : CalcInput :=
  { sleep := f.sleep.getD 0
    studyHours := f.studyHours.getD 0
    deadlines := f.deadlines.getD 0
    mood := f.mood.getD 0
    stress := f.stress.getD 0
    exercise := f.exercise = "on" }

/-- The observable outcome of one `/calculate` request. -/
inductive CalcResponse where
  /-- Response `http.Error(w, "Method not allowed", 405)` (`main.go` lines 104–107). -/
  | methodNotAllowed : CalcResponse
  /-- The rendered result fragment, carrying the computed score, level and
  advice (`main.go` lines 172–281). -/
  | ok (score : ℚ) (level : String) (advice : String) : CalcResponse
deriving DecidableEq, Repr

/-- Go `handleCalculate` (`main.go` lines 103–282) as a transition on the rows
of the `entries` table. `now` is the insertion timestamp the store assigns;
`introIdx` stands for the random intro choice inside `generateAIAdvice`.
Returns the response together with the table contents after the request. -/
def handleCalculate (method : String) (f : Form) (now : ℕ) (introIdx : ℕ)
    (rows : List Row) : CalcResponse × List Row :=
  if method ≠ "POST" then (CalcResponse.methodNotAllowed, rows)
  else
    let i := parseForm f
    let sc := score i
    let lv := levelOf sc
    let adv := generateAIAdvice introIdx i.sleep i.deadlines i.stress sc
    (CalcResponse.ok sc lv adv,
     rows ++ [{ createdAt := now, sleep := i.sleep, studyHours := i.studyHours,
                deadlines := i.deadlines, mood := i.mood, stress := i.stress,
                exercise := i.exercise, score := sc, level := lv,
                advice := adv, scanOk := true }])

/-- Timestamp rendering `t.Format("15:04")` (`main.go` line 354): the
hour-minute clock string of a timestamp counted in seconds. -/
def formatHM (t : ℕ) : String :=
  let pad := fun n : ℕ => if n < 10 then "0" ++ toString n else toString n
  pad (t / 3600 % 24) ++ ":" ++ pad (t / 60 % 60)

/-- The inner query `SELECT ... ORDER BY created_at DESC LIMIT 10` followed by
the outer `ORDER BY created_at ASC` (`main.go` lines 334–338). Each
`ORDER BY` is modelled as an insertion sort by the timestamp. -/
def recentSeries (rows : List Row) (limit : ℕ) : List Row :=
  List.insertionSort (fun a b : Row => a.createdAt ≤ b.createdAt)
    ((List.insertionSort (fun a b : Row => b.createdAt ≤ a.createdAt) rows).take limit)

/-- The JSON payload of `/history-chart` (`main.go` lines 34–37). -/
structure ChartData where
  labels : List String
  data : List ℚ
deriving DecidableEq, Repr

/-- One iteration of the scan loop of `handleChartData` (`main.go` lines
348–356): a row whose `Scan` fails is skipped by `continue`; otherwise its
formatted time and score are appended to the two parallel arrays. -/
def scanStep (acc : ChartData) (r : Row) : ChartData :=
  if r.scanOk then
    { labels := acc.labels ++ [formatHM r.createdAt], data := acc.data ++ [r.score] }
  else acc

/-- The whole scan loop of `handleChartData`, starting from empty arrays. -/
def scanRows (rows : List Row) : ChartData :=
  rows.foldl scanStep { labels := [], data := [] }

/-- Go `handleChartData` (`main.go` lines 333–362) on a query that succeeds:
the last-ten series is scanned into the chart payload. -/
def handleChartData (rows : List Row) : ChartData :=
  scanRows (recentSeries rows 10)

/-- A sample stored row with the given timestamp, used in concrete checks. -/
def sampleRow (t : ℕ) : Row :=
  { createdAt := t, sleep := 6, studyHours := 2, deadlines := 1, mood := 3, stress := 2,
    exercise := false, score := 42, level := "🟡 At Risk", advice := "", scanOk := true }

/-! ### Theorems -/

/-- C1: for every input, the computed score equals the spec formula
`clamp(deadlines*10 + stress*12 + (8-sleep)*8 + studyHours*3 - (exercise ? 10 : 0), 0, 100)`
and therefore always lies in `[0,100]`; at `sleep=0, studyHours=20,
deadlines=10, stress=5, exercise=false` the raw score is `284` and the
clamped score `100`. -/
theorem c1_score_is_clamped_formula (i : CalcInput) :
    score i = max 0 (min 100 (rawScoreSpec i)) ∧
    0 ≤ score i ∧ score i ≤ 100 ∧
    rawScore { sleep := 0, studyHours := 20, deadlines := 10, mood := 3,
               stress := 5, exercise := false } = 284 ∧
    score { sleep := 0, studyHours := 20, deadlines := 10, mood := 3,
            stress := 5, exercise := false } = 100 := by
  refine ⟨?_, le_max_left 0 _, max_le (by norm_num) (min_le_left _ _), ?_, ?_⟩
  · simp [score, rawScore, rawScoreSpec, sleepPenalty, exerciseBonus]
  · norm_num [rawScore, sleepPenalty, exerciseBonus]
  · norm_num [score, rawScore, sleepPenalty, exerciseBonus]

/-- C2: the risk tier is determined from the score by inclusive upper
bounds: `score ≤ 30` is Healthy, `30 < score ≤ 60` At Risk,
`60 < score ≤ 80` High Risk, `80 < score` Severe Burnout. -/
theorem c2_tier_thresholds (s : ℚ) :
    (s ≤ 30 → levelOf s = "🟢 Healthy") ∧
    (30 < s → s ≤ 60 → levelOf s = "🟡 At Risk") ∧
    (60 < s → s ≤ 80 → levelOf s = "🟠 High Risk") ∧
    (80 < s → levelOf s = "🔴 Severe Burnout") := by
  unfold levelOf
  refine ⟨?_, ?_, ?_, ?_⟩ <;> intros <;> split_ifs <;> first | rfl | linarith

/-- C2 witness: the boundary examples of the spec, `30`, `30.0001`, `80`
and `80.0001`. -/
theorem c2_tier_thresholds_witness :
    levelOf 30 = "🟢 Healthy" ∧ levelOf (300001/10000) = "🟡 At Risk" ∧
    levelOf 80 = "🟠 High Risk" ∧ levelOf (800001/10000) = "🔴 Severe Burnout" :=
  ⟨(c2_tier_thresholds 30).1 (by norm_num),
   (c2_tier_thresholds (300001/10000)).2.1 (by norm_num) (by norm_num),
   (c2_tier_thresholds 80).2.2.1 (by norm_num) (by norm_num),
   (c2_tier_thresholds (800001/10000)).2.2.2 (by norm_num)⟩

/-- C5: a request with any method other than POST is answered with
method-not-allowed and leaves the stored rows unchanged. -/
theorem c5_non_post_rejected (m : String) (f : Form) (now introIdx : ℕ)
    (rows : List Row) (h : m ≠ "POST") :
    handleCalculate m f now introIdx rows = (CalcResponse.methodNotAllowed, rows) := by
  simp [handleCalculate, h]

/-- C5 witness: a GET to `/calculate` on an empty store. -/
theorem c5_non_post_rejected_witness :
    handleCalculate "GET" ⟨none, none, none, none, none, ""⟩ 0 0 [] =
      (CalcResponse.methodNotAllowed, []) :=
  c5_non_post_rejected "GET" ⟨none, none, none, none, none, ""⟩ 0 0 [] (by decide)

/-- C9: the startup migration drops the `entries` table and recreates it, so
from every prior store state — whatever rows it held, or no table at all —
it reaches the state with an existing, empty table. -/
theorem c9_migrations_reset_table (s : StoreState) :
    runMigrations s = { entriesTable := some [] } := by
  cases s with
  | mk t => cases t <;> rfl

/-- C4: a POST whose malformed numeric fields parsed to `none` is processed
exactly as if those fields had been submitted as `0`: the response is a
rendered result (never an error), a row is appended, and the outcome equals
the outcome on the fully-parsed zero-defaulted form. -/
theorem c4_malformed_fields_become_zero (f : Form) (now introIdx : ℕ) (rows : List Row) :
    (∃ sc lv adv, (handleCalculate "POST" f now introIdx rows).1 = CalcResponse.ok sc lv adv) ∧
    (∃ r, (handleCalculate "POST" f now introIdx rows).2 = rows ++ [r]) ∧
    handleCalculate "POST" f now introIdx rows =
      handleCalculate "POST"
        { sleep := some (f.sleep.getD 0), studyHours := some (f.studyHours.getD 0),
          deadlines := some (f.deadlines.getD 0), mood := some (f.mood.getD 0),
          stress := some (f.stress.getD 0), exercise := f.exercise } now introIdx rows := by
  refine ⟨⟨_, _, _, rfl⟩, ⟨_, rfl⟩, ?_⟩
  simp [handleCalculate, parseForm]

/-- C7: the action recommendation is picked by the first matching rule, in
the fixed order `sleep < 5`, then `stress > 3`, then `deadlines > 4`, then
the default; the advice text always ends with that action part. -/
theorem c7_action_priority_order (sleep : ℚ) (deadlines stress : ℤ) :
    (sleep < 5 →
      adviceAction sleep deadlines stress =
        "Immediate Priority: Disconnect 1 hour before bed to reclaim REM cycles.") ∧
    (¬ sleep < 5 → 3 < stress →
      adviceAction sleep deadlines stress =
        "Suggestion: Implement the Pomodoro technique (25/5) to fragment stress accumulation.") ∧
    (¬ sleep < 5 → ¬ 3 < stress → 4 < deadlines →
      adviceAction sleep deadlines stress =
        "Strategy: Triage your deadlines; ask for extensions on low-priority tasks.") ∧
    (¬ sleep < 5 → ¬ 3 < stress → ¬ 4 < deadlines →
      adviceAction sleep deadlines stress =
        "Recommendation: Maintain current routine but monitor hydration levels.") ∧
    (∀ introIdx : ℕ, ∀ s : ℚ,
      generateAIAdvice introIdx sleep deadlines stress s =
        adviceIntro.getD introIdx "" ++ " " ++ adviceBody deadlines s ++ " "
          ++ adviceAction sleep deadlines stress) := by
  refine ⟨?_, ?_, ?_, ?_, fun _ _ => rfl⟩ <;> intros <;> simp [adviceAction, *]

/-- C7 witness: one concrete input per rule of the priority order. -/
theorem c7_action_priority_order_witness :
    adviceAction 4 9 9 =
      "Immediate Priority: Disconnect 1 hour before bed to reclaim REM cycles." ∧
    adviceAction 7 9 4 =
      "Suggestion: Implement the Pomodoro technique (25/5) to fragment stress accumulation." ∧
    adviceAction 7 5 2 =
      "Strategy: Triage your deadlines; ask for extensions on low-priority tasks." ∧
    adviceAction 7 4 3 =
      "Recommendation: Maintain current routine but monitor hydration levels." :=
  ⟨(c7_action_priority_order 4 9 9).1 (by norm_num),
   (c7_action_priority_order 7 9 4).2.1 (by norm_num) (by decide),
   (c7_action_priority_order 7 5 2).2.2.1 (by norm_num) (by decide) (by decide),
   (c7_action_priority_order 7 4 3).2.2.2.1 (by norm_num) (by decide) (by decide)⟩

/-- C8: two submissions that agree on every field except `mood` get the same
score and the same risk tier — `mood` is parsed and stored but never enters
the formula or the classification. -/
theorem c8_mood_does_not_affect_score (f g : Form)
    (hs : f.sleep = g.sleep) (hh : f.studyHours = g.studyHours)
    (hd : f.deadlines = g.deadlines) (hst : f.stress = g.stress)
    (he : f.exercise = g.exercise) :
    score (parseForm f) = score (parseForm g) ∧
    levelOf (score (parseForm f)) = levelOf (score (parseForm g)) := by
  have hsc : score (parseForm f) = score (parseForm g) := by
    simp [score, rawScore, parseForm, sleepPenalty, exerciseBonus, hs, hh, hd, hst, he]
  exact ⟨hsc, by rw [hsc]⟩

/-- C8 witness: two concrete forms differing only in `mood` (1 versus 5). -/
theorem c8_mood_does_not_affect_score_witness :
    score (parseForm ⟨some 6, some 2, some 1, some 1, some 2, "on"⟩) =
      score (parseForm ⟨some 6, some 2, some 1, some 5, some 2, "on"⟩) ∧
    levelOf (score (parseForm ⟨some 6, some 2, some 1, some 1, some 2, "on"⟩)) =
      levelOf (score (parseForm ⟨some 6, some 2, some 1, some 5, some 2, "on"⟩)) :=
  c8_mood_does_not_affect_score _ _ rfl rfl rfl rfl rfl

/-- The raw linear formula is monotone: more deadlines, stress or study
hours, less sleep, and less exercise relief never decrease it. -/
lemma rawScore_mono (i j : CalcInput) (hsleep : j.sleep ≤ i.sleep)
    (hstudy : i.studyHours ≤ j.studyHours) (hdead : i.deadlines ≤ j.deadlines)
    (hstress : i.stress ≤ j.stress) (hex : j.exercise = true → i.exercise = true) :
    rawScore i ≤ rawScore j := by
  have hb : exerciseBonus j.exercise ≤ exerciseBonus i.exercise := by
    cases hj : j.exercise with
    | true => rw [hex hj]
    | false => cases i.exercise <;> simp [exerciseBonus]
  have h1 : (i.deadlines : ℚ) ≤ (j.deadlines : ℚ) := by exact_mod_cast hdead
  have h2 : (i.stress : ℚ) ≤ (j.stress : ℚ) := by exact_mod_cast hstress
  unfold rawScore sleepPenalty
  linarith [hb, h1, h2, hsleep, hstudy]

/-- The clamped score inherits the monotonicity of the raw formula. -/
lemma score_mono (i j : CalcInput) (hsleep : j.sleep ≤ i.sleep)
    (hstudy : i.studyHours ≤ j.studyHours) (hdead : i.deadlines ≤ j.deadlines)
    (hstress : i.stress ≤ j.stress) (hex : j.exercise = true → i.exercise = true) :
    score i ≤ score j :=
  max_le_max le_rfl (min_le_min le_rfl (rawScore_mono i j hsleep hstudy hdead hstress hex))

/-- C10: with the other fields fixed, the score is monotone in deadlines,
stress and study hours, antitone in sleep, and exercising never yields a
larger score than not exercising. -/
theorem c10_score_monotonicity :
    (∀ i : CalcInput, ∀ d e : ℤ, d ≤ e →
      score { i with deadlines := d } ≤ score { i with deadlines := e }) ∧
    (∀ i : CalcInput, ∀ d e : ℤ, d ≤ e →
      score { i with stress := d } ≤ score { i with stress := e }) ∧
    (∀ i : CalcInput, ∀ a b : ℚ, a ≤ b →
      score { i with studyHours := a } ≤ score { i with studyHours := b }) ∧
    (∀ i : CalcInput, ∀ a b : ℚ, a ≤ b →
      score { i with sleep := b } ≤ score { i with sleep := a }) ∧
    (∀ i : CalcInput,
      score { i with exercise := true } ≤ score { i with exercise := false }) := by
  exact ⟨fun i d e h => score_mono _ _ le_rfl le_rfl h le_rfl (fun hx => hx),
    fun i d e h => score_mono _ _ le_rfl le_rfl le_rfl h (fun hx => hx),
    fun i a b h => score_mono _ _ le_rfl h le_rfl le_rfl (fun hx => hx),
    fun i a b h => score_mono _ _ h le_rfl le_rfl le_rfl (fun hx => hx),
    fun i => score_mono _ _ le_rfl le_rfl le_rfl le_rfl (fun hx => nomatch hx)⟩

/-- C10 witness: each monotonicity clause at a concrete instance. -/
theorem c10_score_monotonicity_witness :
    (score { sleep := 6, studyHours := 2, deadlines := 1, mood := 3, stress := 2,
             exercise := false } ≤
      score { sleep := 6, studyHours := 2, deadlines := 4, mood := 3, stress := 2,
              exercise := false }) ∧
    (score { sleep := 6, studyHours := 2, deadlines := 1, mood := 3, stress := 2,
             exercise := false } ≤
      score { sleep := 6, studyHours := 2, deadlines := 1, mood := 3, stress := 5,
              exercise := false }) ∧
    (score { sleep := 6, studyHours := 2, deadlines := 1, mood := 3, stress := 2,
             exercise := false } ≤
      score { sleep := 6, studyHours := 9, deadlines := 1, mood := 3, stress := 2,
              exercise := false }) ∧
    (score { sleep := 9, studyHours := 2, deadlines := 1, mood := 3, stress := 2,
             exercise := false } ≤
      score { sleep := 6, studyHours := 2, deadlines := 1, mood := 3, stress := 2,
              exercise := false }) ∧
    (score { sleep := 6, studyHours := 2, deadlines := 1, mood := 3, stress := 2,
             exercise := true } ≤
      score { sleep := 6, studyHours := 2, deadlines := 1, mood := 3, stress := 2,
              exercise := false }) :=
  ⟨c10_score_monotonicity.1
      { sleep := 6, studyHours := 2, deadlines := 1, mood := 3, stress := 2,
        exercise := false } 1 4 (by decide),
   c10_score_monotonicity.2.1
      { sleep := 6, studyHours := 2, deadlines := 1, mood := 3, stress := 2,
        exercise := false } 2 5 (by decide),
   c10_score_monotonicity.2.2.1
      { sleep := 6, studyHours := 2, deadlines := 1, mood := 3, stress := 2,
        exercise := false } 2 9 (by norm_num),
   c10_score_monotonicity.2.2.2.1
      { sleep := 6, studyHours := 2, deadlines := 1, mood := 3, stress := 2,
        exercise := false } 6 9 (by norm_num),
   c10_score_monotonicity.2.2.2.2
      { sleep := 6, studyHours := 2, deadlines := 1, mood := 3, stress := 2,
        exercise := false }⟩

/-- Mathlib `List.orderedInsert` appends at the end when the inserted element is
related to no element of the list. -/
lemma orderedInsert_append_of_forall_not {α : Type} (r : α → α → Prop) [DecidableRel r]
    (a : α) (l : List α) (h : ∀ x ∈ l, ¬ r a x) :
    List.orderedInsert r a l = l ++ [a] := by
  induction l with
  | nil => rfl
  | cons b t ih =>
    simp only [List.orderedInsert]
    rw [if_neg (h b (List.mem_cons_self b t)),
      ih (fun x hx => h x (List.mem_cons_of_mem b hx))]
    rfl

/-- An insertion sort of a list whose relation fails on every ordered pair
reverses the list. -/
lemma insertionSort_eq_reverse_of_pairwise_not {α : Type} (r : α → α → Prop) [DecidableRel r]
    (l : List α) (h : l.Pairwise (fun a b => ¬ r a b)) :
    List.insertionSort r l = l.reverse := by
  induction l with
  | nil => rfl
  | cons a t ih =>
    rcases List.pairwise_cons.mp h with ⟨ha, ht⟩
    simp only [List.insertionSort]
    rw [ih ht, orderedInsert_append_of_forall_not r a t.reverse
      (fun x hx => ha x (List.mem_reverse.mp hx))]
    simp

/-- Under strictly increasing creation timestamps, the DESC-then-ASC query of
`recentSeries` returns exactly the final `limit` rows of the table. -/
lemma recentSeries_eq_drop (rows : List Row) (limit : ℕ)
    (h : rows.Pairwise (fun a b => a.createdAt < b.createdAt)) :
    recentSeries rows limit = rows.drop (rows.length - limit) := by
  have h1 : rows.reverse.Pairwise (fun a b : Row => b.createdAt < a.createdAt) :=
    List.pairwise_reverse.mpr h
  have h2 : (rows.reverse.take limit).Pairwise
      (fun a b : Row => ¬ a.createdAt ≤ b.createdAt) :=
    (h1.sublist (List.take_sublist _ _)).imp (fun hab => not_le.mpr hab)
  unfold recentSeries
  rw [insertionSort_eq_reverse_of_pairwise_not _ rows
    (h.imp (fun hab => not_le.mpr hab))]
  rw [insertionSort_eq_reverse_of_pairwise_not _ _ h2]
  rw [List.take_reverse, List.reverse_reverse]

/-- C3: when the stored rows carry strictly increasing creation timestamps,
`RecentSeries(10)` returns at most ten rows, ordered non-decreasing by
timestamp, and they are exactly the ten most recently created rows — the
final ten of the table, however many rows it holds. -/
theorem c3_recent_series_last_ten (rows : List Row)
    (h : rows.Pairwise (fun a b => a.createdAt < b.createdAt)) :
    (recentSeries rows 10).length ≤ 10 ∧
    (recentSeries rows 10).Pairwise (fun a b => a.createdAt ≤ b.createdAt) ∧
    recentSeries rows 10 = rows.drop (rows.length - 10) := by
  have key := recentSeries_eq_drop rows 10 h
  refine ⟨?_, ?_, key⟩
  · rw [key, List.length_drop]
    omega
  · rw [key]
    exact (h.sublist (List.drop_sublist _ _)).imp le_of_lt

/-- C3 witness: a store of three rows with timestamps 10, 20, 30. -/
theorem c3_recent_series_last_ten_witness :
    (recentSeries [sampleRow 10, sampleRow 20, sampleRow 30] 10).length ≤ 10 ∧
    (recentSeries [sampleRow 10, sampleRow 20, sampleRow 30] 10).Pairwise
      (fun a b => a.createdAt ≤ b.createdAt) ∧
    recentSeries [sampleRow 10, sampleRow 20, sampleRow 30] 10 =
      [sampleRow 10, sampleRow 20, sampleRow 30].drop
        ([sampleRow 10, sampleRow 20, sampleRow 30].length - 10) :=
  c3_recent_series_last_ten [sampleRow 10, sampleRow 20, sampleRow 30]
    (by simp [List.pairwise_cons, sampleRow])

/-- The scan loop keeps the two chart arrays the same length. -/
lemma scanFold_length (rows : List Row) (acc : ChartData)
    (h : acc.labels.length = acc.data.length) :
    (rows.foldl scanStep acc).labels.length = (rows.foldl scanStep acc).data.length := by
  induction rows generalizing acc with
  | nil => exact h
  | cons r t ih =>
    apply ih
    unfold scanStep
    split
    · simp [h]
    · exact h

/-- The scan loop ignores exactly the rows whose decode fails. -/
lemma scanFold_filter (rows : List Row) (acc : ChartData) :
    rows.foldl scanStep acc = (rows.filter (fun r => r.scanOk)).foldl scanStep acc := by
  induction rows generalizing acc with
  | nil => rfl
  | cons r t ih =>
    cases hr : r.scanOk
    · rw [List.filter_cons_of_neg (by simp [hr])]
      simp only [List.foldl_cons]
      rw [show scanStep acc r = acc by simp [scanStep, hr]]
      exact ih acc
    · rw [List.filter_cons_of_pos (by simp [hr])]
      simp only [List.foldl_cons]
      exact ih (scanStep acc r)

/-- C6: the `/history-chart` payload always has `labels` and `data` arrays of
equal length, and rows whose decode fails are skipped as a pair — scanning a
row list gives the same payload as scanning only its decodable rows. -/
theorem c6_chart_arrays_parallel (rows : List Row) :
    (handleChartData rows).labels.length = (handleChartData rows).data.length ∧
    scanRows rows = scanRows (rows.filter (fun r => r.scanOk)) := by
  constructor
  · exact scanFold_length (recentSeries rows 10) { labels := [], data := [] } rfl
  · exact scanFold_filter rows { labels := [], data := [] }

end Burnout
